import Mathlib

/-!
Verification of the search/ranking and suggestion engine of the
NZ-Wildlife Flask application (src/app.py).

The embedding models the two route handlers that make up the engine:

* `GET /species` (function `species`, app.py lines 93-130): a SQL search
  over nine columns of the `species` table with a CASE expression that
  tags each row with the first matching field.
* `GET /api/search-suggestions` (function `search_suggestions`,
  app.py lines 275-354): a show-all branch (ORDER BY species_name
  LIMIT 20, entries capped to 15) and a query branch (4-field LIKE
  filter, rank CASE ordering, LIMIT 10 records, entries capped to 10).

SQL NULL is `Option.none`; SQLite LIKE with a %q% pattern over a
wildcard-free lowered query is substring containment; the default BINARY
collation of ORDER BY is byte/codepoint comparison (`charListLe`).
Python exceptions (uncaught in these handlers) are `PyResult.exn`.
-/

namespace NZWildlife

/-- Byte/codepoint lexicographic comparison of character lists, modelling
the SQLite BINARY collation used by ORDER BY on text columns. -/
def charListLe : List Char → List Char → Bool
  | [], _ => true
  | _ :: _, [] => false
  | a :: as, b :: bs =>
    if a.toNat < b.toNat then true
    else if b.toNat < a.toNat then false
    else charListLe as bs

/-- BINARY-collation comparison of strings. -/
def strLe (a b : String) : Bool :=
  charListLe a.data b.data

/-- Python str.lower / SQLite LOWER, character by character. -/
def strLower (s : String) : String :=
  ⟨s.data.map Char.toLower⟩

/-- Python str.strip: surrounding whitespace removed. -/
def strStrip (s : String) : String :=
  ⟨((s.data.dropWhile Char.isWhitespace).reverse.dropWhile
      Char.isWhitespace).reverse⟩

/-- Character-list prefix test. -/
def charsStart : List Char → List Char → Bool
  | [], _ => true
  | _ :: _, [] => false
  | a :: as, b :: bs => a == b && charsStart as bs

/-- Character-list substring (contiguous infix) test. -/
def charsContain (n : List Char) : List Char → Bool
  | [] => n.isEmpty
  | b :: bs => charsStart n (b :: bs) || charsContain n bs

/-- Python `needle in hay` substring test / SQLite `hay LIKE %needle%`
for a wildcard-free needle. -/
def likeContains (needle hay : String) : Bool :=
  charsContain needle.data hay.data

/-- SQLite `hay LIKE needle%` for a wildcard-free needle. -/
def likeStarts (needle hay : String) : Bool :=
  charsStart needle.data hay.data

/-- A row of the `species` table (app.py `/api/species` documents the
column layout: id, species_name, scientific_name, species_type,
origin_status, predator, prey, status, family, numbers, image_url).
Every column except `id` is nullable. -/
structure SpeciesRecord where
  id : Nat
  species_name : Option String
  scientific_name : Option String
  species_type : Option String
  origin_status : Option String
  predator : Option String
  prey : Option String
  status : Option String
  family : Option String
  numbers : Option String
  image_url : Option String
deriving DecidableEq, Repr

/-- The labels produced by the CASE expression of the `/species` search
(app.py lines 102-112), in source order. -/
inductive MatchField where
  | speciesName
  | scientificName
  | speciesType
  | originStatus
  | predator
  | prey
  | status
  | family
  | numbers
deriving DecidableEq, Repr

/-- A row returned by the `/species` route: the record together with the
`matched_field` column (NULL on the empty-query branch). -/
structure SpeciesRow where
  record : SpeciesRecord
  matched_field : Option MatchField
deriving DecidableEq, Repr

/-- Outcome of a Flask request handler: a value, or an uncaught Python
exception propagating to the caller. -/
inductive PyResult (α : Type) where
  | ok : α → PyResult α
  | exn : String → PyResult α
deriving DecidableEq, Repr

/-- `LOWER(field) LIKE %q%` where `q` is the already-lowered query:
NULL fields never match. -/
def fieldLike (f : Option String) (q : String) : Bool :=
  match f with
  | none => false
  | some s => likeContains q (strLower s)

/-- `LOWER(field) LIKE q%` (prefix) where `q` is the already-lowered
query: NULL fields never match. -/
def fieldStarts (f : Option String) (q : String) : Bool :=
  match f with
  | none => false
  | some s => likeStarts q (strLower s)

/-- The WHERE clause of the `/species` search (app.py lines 114-122):
nine LIKE disjuncts. -/
def whereMatch (q : String) (r : SpeciesRecord) : Bool :=
  fieldLike r.species_name q || fieldLike r.scientific_name q ||
  fieldLike r.species_type q || fieldLike r.origin_status q ||
  fieldLike r.predator q || fieldLike r.prey q ||
  fieldLike r.status q || fieldLike r.family q ||
  fieldLike r.numbers q

/-- The CASE expression of the `/species` search (app.py lines 102-112):
the first of the nine LIKE tests that succeeds gives the label, and an
uncovered row would give NULL. -/
def matchedField (q : String) (r : SpeciesRecord) : Option MatchField :=
  if fieldLike r.species_name q then some .speciesName
  else if fieldLike r.scientific_name q then some .scientificName
  else if fieldLike r.species_type q then some .speciesType
  else if fieldLike r.origin_status q then some .originStatus
  else if fieldLike r.predator q then some .predator
  else if fieldLike r.prey q then some .prey
  else if fieldLike r.status q then some .status
  else if fieldLike r.family q then some .family
  else if fieldLike r.numbers q then some .numbers
  else none

/-- The `/species` handler body after the store read (app.py lines
96-128).  The query is lower-cased only (no strip).  Non-empty query:
SELECT DISTINCT over the nine-field WHERE with the CASE tag, no ORDER
BY (store order) and no LIMIT.  Empty query: all rows with a NULL
matched_field, store order, no LIMIT. -/
def speciesSearch (rawName : String) (store : List SpeciesRecord) :
    List SpeciesRow :=
  let q := strLower rawName
  if q = "" then
    store.map (fun r => { record := r, matched_field := none })
  else
    (((store.filter (fun r => whereMatch q r)).map
      (fun r => { record := r, matched_field := matchedField q r })) :
      List SpeciesRow).dedup

/-- The `/species` handler including the store access: the cursor
execute/fetchall runs with no try/except, so a store failure propagates
as an exception. -/
def speciesRoute (rawName : String)
    (fetch : PyResult (List SpeciesRecord)) : PyResult (List SpeciesRow) :=
  match fetch with
  | .exn m => .exn m
  | .ok store => .ok (speciesSearch rawName store)

/-- A projected row of the suggestions SQL:
`SELECT DISTINCT species_name, scientific_name, species_type, family`. -/
structure SugRow where
  species_name : Option String
  scientific_name : Option String
  species_type : Option String
  family : Option String
deriving DecidableEq, Repr

/-- A suggestion entry of the JSON response.  Both values come from
Python expressions that may be `None` (the species_name text in the
show-all branch, and the bare `row[2]` type), so both are options. -/
structure Suggestion where
  text : Option String
  type : Option String
deriving DecidableEq, Repr

/-- Python truthiness of a nullable string: `None` and the empty string
are falsy. -/
def pyTruthy : Option String → Bool
  | none => false
  | some s => s ≠ ""

/-- Interpolation of a nullable string into a Python f-string:
`None` renders as the text `"None"`. -/
def pystr : Option String → String
  | none => "None"
  | some s => s

/-- Projection of a table row onto the four suggestion columns. -/
def projRow (r : SpeciesRecord) : SugRow :=
  { species_name := r.species_name, scientific_name := r.scientific_name,
    species_type := r.species_type, family := r.family }

/-- The type label of a species_name suggestion (app.py lines 298 and
337): `f-string {species_type} - {family}` if `family` is truthy, else
the raw `species_type` value (which may be null). -/
def typeLabel1 (st fam : Option String) : Option String :=
  if pyTruthy fam then some (pystr st ++ " - " ++ pystr fam) else st

/-- BINARY comparison on nullable species_name keys: SQLite ORDER BY
sorts NULLs first on an ascending key. -/
def optNameLe (x y : Option String) : Bool :=
  match x, y with
  | none, _ => true
  | some _, none => false
  | some a, some b => strLe a b

/-- ORDER BY species_name of the show-all suggestions SQL, as a binary
relation on projected rows. -/
def rowNameLeP (x y : SugRow) : Prop :=
  optNameLe x.species_name y.species_name = true

instance : DecidableRel rowNameLeP := fun x y => by
  unfold rowNameLeP; infer_instance

/-- The WHERE clause of the query-mode suggestions SQL (app.py lines
314-317): four LIKE disjuncts. -/
def sugWhere (q : String) (row : SugRow) : Bool :=
  fieldLike row.species_name q || fieldLike row.scientific_name q ||
  fieldLike row.species_type q || fieldLike row.family q

/-- The rank CASE of the query-mode ORDER BY (app.py lines 319-323):
1 for a species_name prefix match, 2 for a scientific_name prefix
match, 3 otherwise. -/
def sugRank (q : String) (row : SugRow) : Nat :=
  if fieldStarts row.species_name q then 1
  else if fieldStarts row.scientific_name q then 2
  else 3

/-- The full ORDER BY key of the query-mode suggestions SQL: ascending
rank, then species_name under BINARY collation. -/
def rowLeP (q : String) (x y : SugRow) : Prop :=
  sugRank q x < sugRank q y ∨
    (sugRank q x = sugRank q y ∧ optNameLe x.species_name y.species_name = true)

instance (q : String) : DecidableRel (rowLeP q) := fun x y => by
  unfold rowLeP; infer_instance

/-- Rows retained by the query-mode SQL before ordering: projection,
WHERE filter, DISTINCT. -/
def queryRows (q : String) (store : List SpeciesRecord) : List SugRow :=
  ((store.map projRow).filter (fun row => sugWhere q row)).dedup

/-- Rows delivered by the query-mode SQL: ordered by (rank,
species_name) and cut by LIMIT 10. -/
def querySortedRows (q : String) (store : List SpeciesRecord) : List SugRow :=
  (List.insertionSort (rowLeP q) (queryRows q store)).take 10

/-- The query-mode Python loop body for one row (app.py lines 332-350).
It evaluates `row[0].lower()`, `row[1].lower()` and `row[2].lower()`
unconditionally, so a NULL species_name, scientific_name or
species_type raises AttributeError (`none`).  The already-lowered,
stripped query is `q`. -/
def queryEntries (q : String) (row : SugRow) : Option (List Suggestion) :=
  match row.species_name, row.scientific_name, row.species_type with
  | some n, some sci, some st =>
    some
      ((if likeContains q (strLower n) then
          [{ text := some n, type := typeLabel1 (some st) row.family }]
        else []) ++
       (if likeContains q (strLower sci) && sci ≠ n then
          [{ text := some sci,
             type := some ("Scientific Name - " ++ st) }]
        else []) ++
       (if likeContains q (strLower st) then
          [{ text := some n, type := some ("Type: " ++ st) }]
        else []))
  | _, _, _ => none

/-- The query branch of the suggestions handler: loop over the SQL rows
(propagating any AttributeError), then `suggestions[:10]`. -/
def querySuggestions (q : String) (store : List SpeciesRecord) :
    Option (List Suggestion) :=
  ((querySortedRows q store).mapM (queryEntries q)).map
    (fun ls => ls.flatten.take 10)

/-- The show-all Python loop body for one row (app.py lines 295-305):
the species_name entry is emitted unconditionally (its text may be
null), the scientific_name entry only when truthy and different from
species_name.  No field is dereferenced, so this branch never raises. -/
def showAllEntries (row : SugRow) : List Suggestion :=
  [{ text := row.species_name,
     type := typeLabel1 row.species_type row.family }] ++
  (if pyTruthy row.scientific_name && row.scientific_name ≠ row.species_name then
     [{ text := row.scientific_name,
        type := some ("Scientific Name - " ++ pystr row.species_type) }]
   else [])

/-- Rows delivered by the show-all SQL (app.py lines 284-289):
projection, DISTINCT, ORDER BY species_name, LIMIT 20. -/
def showAllRows (store : List SpeciesRecord) : List SugRow :=
  (List.insertionSort rowNameLeP (store.map projRow).dedup).take 20

/-- The show-all branch: expand every retained row, then
`suggestions[:15]`. -/
def showAllSuggestions (store : List SpeciesRecord) : List Suggestion :=
  (((showAllRows store).map showAllEntries).flatten).take 15

/-- The `/api/search-suggestions` handler (app.py lines 275-354).  The
query is lower-cased and stripped; `show_all` is the string comparison
of the lowered parameter with "true".  The store access and the
query-mode loop run with no try/except, so their exceptions propagate.
The final `return` for a query of length zero with show_all false is
unreachable. -/
def suggestionsRoute (rawQ showAllRaw : String)
    (fetch : PyResult (List SpeciesRecord)) : PyResult (List Suggestion) :=
  match fetch with
  | .exn m => .exn m
  | .ok store =>
    let q := strStrip (strLower rawQ)
    let show_all := strLower showAllRaw == "true"
    if show_all || q.length == 0 then
      .ok (showAllSuggestions store)
    else
      match querySuggestions q store with
      | some sugs => .ok sugs
      | none => .exn "AttributeError"

/-- The four-field Matcher described by the spec (section 4.1), stated
from the words of the spec for comparison against the code: a record
matches when the normalized query is a substring of one of
species_name, scientific_name, species_type, family, checked in that
order, and the first containing field is reported. -/
def specMatcher (q : String) (r : SpeciesRecord) : Option MatchField :=
  if fieldLike r.species_name q then some .speciesName
  else if fieldLike r.scientific_name q then some .scientificName
  else if fieldLike r.species_type q then some .speciesType
  else if fieldLike r.family q then some .family
  else none

/-- The nine searched columns of the `/species` WHERE clause and CASE
expression, in source order, paired with their labels. -/
def nineFields (r : SpeciesRecord) : List (MatchField × Option String) :=
  [(.speciesName, r.species_name), (.scientificName, r.scientific_name),
   (.speciesType, r.species_type), (.originStatus, r.origin_status),
   (.predator, r.predator), (.prey, r.prey),
   (.status, r.status), (.family, r.family),
   (.numbers, r.numbers)]

/-! Concrete records used by counterexamples and witnesses. -/

/-- A record whose species_name is alphabetically first. -/
def recA : SpeciesRecord :=
  ⟨1, some "a", some "s", some "t", none, none, none, none, some "f",
   none, none⟩

/-- A record whose species_name is alphabetically second. -/
def recB : SpeciesRecord :=
  ⟨2, some "b", some "s2", some "t", none, none, none, none, some "f",
   none, none⟩

/-- A record the query "stoat" reaches only through its predator
column. -/
def recPred : SpeciesRecord :=
  ⟨3, some "np", some "ns", some "nt", none, some "stoat", none, none,
   some "nf", none, none⟩

/-- The Kiwi record of the spec scenario. -/
def recKiwi : SpeciesRecord :=
  ⟨4, some "Kiwi", some "Apteryx", some "Bird", none, none, none, none,
   some "Apterygidae", none, none⟩

/-- A record matching the query "q" only via its family column, with a
species_name of the shape a<i>; such a record survives the suggestion
WHERE clause but contributes no suggestion entry. -/
def recFam (i : Nat) (nm : String) : SpeciesRecord :=
  ⟨i, some nm, some ("s" ++ toString i), some "bird", none, none, none,
   none, some "q", none, none⟩

/-- A record matching the query "q" in its species_name, but not as a
prefix, and alphabetically after every recFam record. -/
def recX : SpeciesRecord :=
  ⟨11, some "zq", some "sx", some "bird", none, none, none, none,
   some "fam", none, none⟩

/-- Ten family-only matches followed by one species_name match. -/
def store11 : List SpeciesRecord :=
  [recFam 1 "a0", recFam 2 "a1", recFam 3 "a2", recFam 4 "a3",
   recFam 5 "a4", recFam 6 "a5", recFam 7 "a6", recFam 8 "a7",
   recFam 9 "a8", recFam 10 "a9", recX]

/-- A record with a null species_type and a present family. -/
def recC6 : SpeciesRecord :=
  ⟨5, some "Kiwi", none, none, none, none, none, none, some "Felidae",
   none, none⟩

/-- A record with both species_type and family null. -/
def recC6b : SpeciesRecord :=
  ⟨6, some "Kiwi2", none, none, none, none, none, none, none,
   none, none⟩

/-- A record with a null species_name reachable through its
scientific_name. -/
def recNullName : SpeciesRecord :=
  ⟨7, none, some "Aquatica", some "fish", none, none, none, none,
   some "fam", none, none⟩

/-- A record, lower-case species_name "ax", matching the query "x"
without a prefix. -/
def recAx : SpeciesRecord :=
  ⟨8, some "ax", some "s1", some "t", none, none, none, none, some "f",
   none, none⟩

/-- A record, capitalised species_name "Bx", matching the query "x"
without a prefix. -/
def recBx : SpeciesRecord :=
  ⟨9, some "Bx", some "s2", some "t", none, none, none, none, some "f",
   none, none⟩

/-! Order properties of the embedded ORDER BY relations. -/

theorem charListLe_total : ∀ a b : List Char,
    charListLe a b = true ∨ charListLe b a = true
  | [], _ => Or.inl rfl
  | _ :: _, [] => Or.inr rfl
  | a :: as, b :: bs => by
    by_cases h1 : a.toNat < b.toNat
    · left; simp [charListLe, h1]
    · by_cases h2 : b.toNat < a.toNat
      · right; simp [charListLe, h2]
      · rcases charListLe_total as bs with h | h
        · left; simp [charListLe, h1, h2, h]
        · right; simp [charListLe, h1, h2, h]

theorem charListLe_trans : ∀ a b c : List Char,
    charListLe a b = true → charListLe b c = true → charListLe a c = true
  | [], _, _, _, _ => rfl
  | _ :: _, [], _, hab, _ => by simp [charListLe] at hab
  | _ :: _, _ :: _, [], _, hbc => by simp [charListLe] at hbc
  | a :: as, b :: bs, c :: cs, hab, hbc => by
    simp only [charListLe] at hab hbc ⊢
    by_cases h1 : a.toNat < b.toNat <;> by_cases h2 : b.toNat < a.toNat <;>
      by_cases h3 : b.toNat < c.toNat <;> by_cases h4 : c.toNat < b.toNat <;>
      by_cases h5 : a.toNat < c.toNat <;> by_cases h6 : c.toNat < a.toNat <;>
      simp_all <;>
      first
        | omega
        | exact Or.inr (charListLe_trans as bs cs hab hbc)

theorem optNameLe_total (x y : Option String) :
    optNameLe x y = true ∨ optNameLe y x = true := by
  cases x <;> cases y <;> simp [optNameLe, strLe]
  exact charListLe_total _ _

theorem optNameLe_trans (x y z : Option String)
    (hxy : optNameLe x y = true) (hyz : optNameLe y z = true) :
    optNameLe x z = true := by
  cases x <;> cases y <;> cases z <;> simp_all [optNameLe, strLe]
  exact charListLe_trans _ _ _ hxy hyz

instance (q : String) : IsTotal SugRow (rowLeP q) := ⟨by
  intro x y
  unfold rowLeP
  rcases Nat.lt_trichotomy (sugRank q x) (sugRank q y) with h | h | h
  · exact Or.inl (Or.inl h)
  · rcases optNameLe_total x.species_name y.species_name with hn | hn
    · exact Or.inl (Or.inr ⟨h, hn⟩)
    · exact Or.inr (Or.inr ⟨h.symm, hn⟩)
  · exact Or.inr (Or.inl h)⟩

instance (q : String) : IsTrans SugRow (rowLeP q) := ⟨by
  intro x y z hxy hyz
  unfold rowLeP at hxy hyz ⊢
  rcases hxy with h | ⟨h1, h2⟩ <;> rcases hyz with h' | ⟨h1', h2'⟩
  · exact Or.inl (Nat.lt_trans h h')
  · exact Or.inl (h1' ▸ h)
  · exact Or.inl (h1 ▸ h')
  · exact Or.inr ⟨h1.trans h1', optNameLe_trans _ _ _ h2 h2'⟩⟩

/-- Any row passing the nine-field WHERE clause is covered by one of
the nine CASE branches. -/
theorem matchedField_isSome (q : String) (r : SpeciesRecord)
    (h : whereMatch q r = true) : (matchedField q r).isSome = true := by
  unfold whereMatch at h
  unfold matchedField
  split_ifs <;> simp_all

/-! Claim theorems. -/

/-- Claim C1, counterexample.  On a two-record store stored in
descending name order, the empty-query `/species` search returns the
records in store order with no sorting (and no cap), not ascending by
species_name as the claim states. -/
theorem C1_counterexample :
    speciesSearch "" [recB, recA] =
      [{ record := recB, matched_field := none },
       { record := recA, matched_field := none }] ∧
    speciesSearch "" [recB, recA] ≠
      [{ record := recA, matched_field := none },
       { record := recB, matched_field := none }] := by
  constructor
  · rfl
  · decide

/-- Claim C1, amended: a query that lower-cases to the empty string
(whitespace is not trimmed by this route) makes the `/species` search
return ALL records, in store order, each tagged matched_field = none;
there is no 50-row cap and no sorting. -/
theorem C1_empty_query (rawName : String) (store : List SpeciesRecord)
    (hq : strLower rawName = "") :
    speciesSearch rawName store =
      store.map (fun r => { record := r, matched_field := none }) := by
  simp [speciesSearch, hq]

/-- Witness for C1_empty_query at a concrete store. -/
theorem C1_witness :
    strLower "" = "" ∧
    speciesSearch "" [recA, recB] =
      [recA, recB].map (fun r => { record := r, matched_field := none }) :=
  ⟨by decide, C1_empty_query "" [recA, recB] (by decide)⟩

/-- Claim C2, counterexample.  The query "stoat" reaches recPred only
through its predator column, which the four-field Matcher does not
inspect, yet the `/species` search returns the record: the endpoint
does not return exactly the Matcher-accepted records. -/
theorem C2_counterexample :
    speciesSearch "stoat" [recPred] =
      [{ record := recPred, matched_field := some MatchField.predator }] ∧
    specMatcher "stoat" recPred = none := by
  constructor
  · rfl
  · rfl

/-- Claim C2, amended: for a non-empty lowered query, the `/species`
search returns exactly the records whose nine searched columns
(species_name, scientific_name, species_type, origin_status, predator,
prey, status, family, numbers) contain the lowered query, in store
order, with no Ranker ordering and no 50-row cap, each tagged with the
first of the nine fields that contains the query (stated for stores
without duplicate rows, where SELECT DISTINCT is the identity). -/
theorem C2_search_branch (rawName : String) (store : List SpeciesRecord)
    (hq : strLower rawName ≠ "") (hnd : store.Nodup) :
    speciesSearch rawName store =
      (store.filter (fun r => whereMatch (strLower rawName) r)).map
        (fun r => { record := r,
                    matched_field := matchedField (strLower rawName) r }) := by
  simp only [speciesSearch, if_neg hq]
  apply List.dedup_eq_self.mpr
  apply List.Nodup.map
  · intro a b hab
    exact congrArg SpeciesRow.record hab
  · exact hnd.filter _

/-- Witness for C2_search_branch at a concrete store. -/
theorem C2_witness :
    strLower "stoat" ≠ "" ∧ ([recPred] : List SpeciesRecord).Nodup ∧
    speciesSearch "stoat" [recPred] =
      ([recPred].filter (fun r => whereMatch (strLower "stoat") r)).map
        (fun r => { record := r,
                    matched_field := matchedField (strLower "stoat") r }) :=
  ⟨by decide, by decide,
   C2_search_branch "stoat" [recPred] (by decide) (by decide)⟩

/-- Claim C3, counterexample.  recPred contains the query "stoat" in
none of the four Matcher fields, yet the `/species` WHERE clause
accepts it and the CASE expression reports the predator column: a
fifth field both causes a match and is reported. -/
theorem C3_counterexample :
    whereMatch "stoat" recPred = true ∧
    matchedField "stoat" recPred = some MatchField.predator ∧
    specMatcher "stoat" recPred = none := by
  refine ⟨rfl, rfl, rfl⟩

/-- Claim C3, amended: the `/species` matcher inspects NINE fields, not
four: a record matches iff the lowered query is a substring of one of
species_name, scientific_name, species_type, origin_status, predator,
prey, status, family, numbers (in that source order), and the reported
matched_field is the first of those nine fields containing it. -/
theorem C3_nine_field_matcher (q : String) (r : SpeciesRecord) :
    (whereMatch q r = true ↔
      ∃ p ∈ nineFields r, fieldLike p.2 q = true) ∧
    matchedField q r =
      ((nineFields r).find? (fun p => fieldLike p.2 q)).map Prod.fst := by
  constructor
  · simp only [whereMatch, nineFields, Bool.or_eq_true, List.mem_cons,
      List.not_mem_nil, or_false, exists_eq_or_imp, exists_eq_left]
    tauto
  · by_cases h1 : fieldLike r.species_name q
    · simp [matchedField, nineFields, h1, List.find?]
    · by_cases h2 : fieldLike r.scientific_name q
      · simp [matchedField, nineFields, h1, h2, List.find?]
      · by_cases h3 : fieldLike r.species_type q
        · simp [matchedField, nineFields, h1, h2, h3, List.find?]
        · by_cases h4 : fieldLike r.origin_status q
          · simp [matchedField, nineFields, h1, h2, h3, h4, List.find?]
          · by_cases h5 : fieldLike r.predator q
            · simp [matchedField, nineFields, h1, h2, h3, h4, h5,
                List.find?]
            · by_cases h6 : fieldLike r.prey q
              · simp [matchedField, nineFields, h1, h2, h3, h4, h5, h6,
                  List.find?]
              · by_cases h7 : fieldLike r.status q
                · simp [matchedField, nineFields, h1, h2, h3, h4, h5,
                    h6, h7, List.find?]
                · by_cases h8 : fieldLike r.family q
                  · simp [matchedField, nineFields, h1, h2, h3, h4, h5,
                      h6, h7, h8, List.find?]
                  · by_cases h9 : fieldLike r.numbers q <;>
                      simp [matchedField, nineFields, h1, h2, h3, h4,
                        h5, h6, h7, h8, h9, List.find?]

/-- Claim C4: a record whose species_name contains the lowered
non-empty query appears in the `/species` output tagged with the
species_name field (the route has no row cap, so membership is
unconditional). -/
theorem C4_species_name_search (rawName : String)
    (store : List SpeciesRecord) (r : SpeciesRecord)
    (hmem : r ∈ store) (hq : strLower rawName ≠ "")
    (hsub : fieldLike r.species_name (strLower rawName) = true) :
    ({ record := r, matched_field := some MatchField.speciesName } :
      SpeciesRow) ∈ speciesSearch rawName store := by
  simp only [speciesSearch, if_neg hq]
  rw [List.mem_dedup]
  refine List.mem_map.mpr ⟨r, List.mem_filter.mpr ⟨hmem, ?_⟩, ?_⟩
  · unfold whereMatch
    simp [hsub]
  · unfold matchedField
    rw [if_pos hsub]

/-- Witness for C4_species_name_search: the query "Ki" finds the Kiwi
record. -/
theorem C4_witness :
    recKiwi ∈ [recKiwi] ∧ strLower "Ki" ≠ "" ∧
    fieldLike recKiwi.species_name (strLower "Ki") = true ∧
    ({ record := recKiwi, matched_field := some MatchField.speciesName } :
      SpeciesRow) ∈ speciesSearch "Ki" [recKiwi] :=
  ⟨by decide, by decide, by decide,
   C4_species_name_search "Ki" [recKiwi] recKiwi (by decide) (by decide)
     (by decide)⟩

/-- Claim C5, counterexample.  In query mode the SQL LIMIT 10 cuts the
store to ten records before entry expansion: on store11 the ten
family-only matches (which expand to zero entries) fill the record
limit, the matching record recX is excluded before expansion, and the
endpoint returns zero entries where the claimed expand-then-truncate
pipeline would return the recX entry. -/
theorem C5_counterexample :
    suggestionsRoute "q" "false" (.ok store11) = .ok [] ∧
    sugWhere "q" (projRow recX) = true ∧
    queryEntries "q" (projRow recX) =
      some [{ text := some "zq", type := some "bird - fam" }] ∧
    projRow recX ∈ queryRows "q" store11 ∧
    projRow recX ∉ querySortedRows "q" store11 := by
  refine ⟨by decide, by decide, by decide, by decide, by decide⟩

/-- Claim C5, amended: the endpoint never returns more than 15 entries,
and never more than 10 in query mode; but the entry-level truncation is
applied to the expansion of only the records retained by the SQL record
LIMIT (10 in query mode, 20 in show-all mode), so matching records
beyond the record limit are excluded before expansion. -/
theorem C5_entry_caps (rawQ showAllRaw : String)
    (store : List SpeciesRecord) (sugs : List Suggestion)
    (h : suggestionsRoute rawQ showAllRaw (.ok store) = .ok sugs) :
    sugs.length ≤ 15 ∧
      (((strLower showAllRaw == "true") ||
          ((strStrip (strLower rawQ)).length == 0)) = false →
        sugs.length ≤ 10) := by
  simp only [suggestionsRoute] at h
  by_cases hb : ((strLower showAllRaw == "true") ||
      ((strStrip (strLower rawQ)).length == 0)) = true
  · rw [if_pos hb] at h
    injection h with h'
    subst h'
    refine ⟨?_, fun hfalse => absurd hb (by simp [hfalse])⟩
    exact List.length_take_le _ _
  · rw [if_neg hb] at h
    cases hqs : querySuggestions (strStrip (strLower rawQ)) store with
    | none => rw [hqs] at h; exact absurd h (by simp)
    | some s =>
      rw [hqs] at h
      injection h with h'
      subst h'
      unfold querySuggestions at hqs
      obtain ⟨ls, _, hflat⟩ := Option.map_eq_some'.mp hqs
      subst hflat
      exact ⟨le_trans (List.length_take_le _ _) (by norm_num),
        fun _ => List.length_take_le _ _⟩

/-- Witness for C5_entry_caps at a concrete one-record store. -/
theorem C5_witness :
    suggestionsRoute "q" "false" (.ok [recX]) =
      .ok [{ text := some "zq", type := some "bird - fam" }] ∧
    ([{ text := some "zq", type := some "bird - fam" }] :
      List Suggestion).length ≤ 15 :=
  ⟨by decide,
   (C5_entry_caps "q" "false" [recX]
     [{ text := some "zq", type := some "bird - fam" }] (by decide)).1⟩

/-- Claim C6, counterexample.  A record with a null species_type and
family "Felidae" gets the label "None - Felidae" (the Python f-string
renders None), not "Felidae"; and a record with both fields null gets a
null label, not "Unknown". -/
theorem C6_counterexample :
    suggestionsRoute "" "true" (.ok [recC6]) =
      .ok [{ text := some "Kiwi", type := some "None - Felidae" }] ∧
    (some "None - Felidae" : Option String) ≠ some "Felidae" ∧
    suggestionsRoute "" "true" (.ok [recC6b]) =
      .ok [{ text := some "Kiwi2", type := none }] ∧
    (none : Option String) ≠ some "Unknown" := by
  refine ⟨by decide, by decide, by decide, by decide⟩

/-- Claim C6, amended: the species_name entry label is the f-string
"{species_type} - {family}" whenever family is truthy — with a null
species_type rendering as the text "None" — and otherwise the raw
species_type value (null when absent, never the text "Unknown"); the
scientific_name entry label is "Scientific Name - {species_type}" with
a null species_type rendering as "None". -/
theorem C6_type_labels (row : SugRow) :
    (showAllEntries row).head? =
      some { text := row.species_name,
             type := if pyTruthy row.family then
                 some (pystr row.species_type ++ " - " ++ pystr row.family)
               else row.species_type } ∧
    ∀ s ∈ showAllEntries row, s.text ≠ row.species_name →
      s.type = some ("Scientific Name - " ++ pystr row.species_type) := by
  constructor
  · simp [showAllEntries, typeLabel1]
  · intro s hs hneq
    unfold showAllEntries at hs
    simp only [List.singleton_append, List.mem_cons] at hs
    rcases hs with rfl | hs
    · exact absurd rfl hneq
    · split at hs
      · simp only [List.mem_singleton] at hs
        subst hs
        rfl
      · simp at hs

/-- The Kiwi suggestion row of the spec scenario. -/
def rowKiwi : SugRow :=
  ⟨some "Kiwi", some "Apteryx", some "Bird", some "Apterygidae"⟩

/-- Witness for C6_type_labels on the Kiwi row. -/
theorem C6_witness :
    (showAllEntries rowKiwi).head? =
      some { text := rowKiwi.species_name,
             type := if pyTruthy rowKiwi.family then
                 some (pystr rowKiwi.species_type ++ " - " ++
                   pystr rowKiwi.family)
               else rowKiwi.species_type } ∧
    ({ text := some "Apteryx", type := some "Scientific Name - Bird" } :
      Suggestion) ∈ showAllEntries rowKiwi ∧
    ({ text := some "Apteryx", type := some "Scientific Name - Bird" } :
      Suggestion).type =
      some ("Scientific Name - " ++ pystr rowKiwi.species_type) :=
  ⟨(C6_type_labels rowKiwi).1, by decide,
   (C6_type_labels rowKiwi).2 _ (by decide) (by decide)⟩

/-- Claim C7, counterexample.  When the store access fails, both
handlers propagate the exception instead of returning an empty result
sequence. -/
theorem C7_counterexample :
    speciesRoute "kiwi" (.exn "database is locked") ≠ .ok [] ∧
    suggestionsRoute "kiwi" "false" (.exn "database is locked") ≠
      .ok [] := by
  refine ⟨by decide, by decide⟩

/-- Claim C7, amended: neither handler catches a store-access failure;
the exception propagates unchanged to the caller from both the search
endpoint and the suggestions endpoint. -/
theorem C7_error_propagation (m rawQ showAllRaw rawName : String) :
    speciesRoute rawName (.exn m) = .exn m ∧
    suggestionsRoute rawQ showAllRaw (.exn m) = .exn m :=
  ⟨rfl, rfl⟩

/-- Claim C8: the code crashes on null fields.  recNullName has a null
species_name and matches the query "aqua" through its scientific_name,
so it survives the suggestion WHERE clause and reaches the expansion
loop, where row[0].lower() raises AttributeError instead of silently
skipping the null field. -/
theorem C8_null_crash :
    sugWhere "aqua" (projRow recNullName) = true ∧
    suggestionsRoute "aqua" "false" (.ok [recNullName]) =
      .exn "AttributeError" := by
  refine ⟨by decide, by decide⟩

/-- Claim C9, counterexample.  Both recAx ("ax") and recBx ("Bx") are
rank-3 matches for the query "x"; SQLite BINARY collation puts "Bx"
before "ax" (capital B sorts before lowercase a), while the claimed
case-insensitive tie-break would put "ax" first. -/
theorem C9_counterexample :
    suggestionsRoute "x" "false" (.ok [recAx, recBx]) =
      .ok [{ text := some "Bx", type := some "t - f" },
           { text := some "ax", type := some "t - f" }] ∧
    sugRank "x" (projRow recAx) = 3 ∧
    sugRank "x" (projRow recBx) = 3 ∧
    strLe (strLower "ax") (strLower "Bx") = true ∧
    strLe "Bx" "ax" = true := by
  refine ⟨by decide, by decide, by decide, by decide, by decide⟩

/-- Claim C9, amended: the query-mode rows are sorted by ascending rank
(species_name prefix, then scientific_name prefix, then other
substring matches) with ties broken by species_name under the
case-SENSITIVE BINARY collation (NULL names first), not
case-insensitively. -/
theorem C9_rank_order (q : String) (store : List SpeciesRecord) :
    List.Sorted (rowLeP q) (querySortedRows q store) := by
  unfold querySortedRows
  exact List.Pairwise.sublist (List.take_sublist _ _)
    (List.sorted_insertionSort (rowLeP q) (queryRows q store))

/-- Claim C10: every row returned by the non-empty-query `/species`
search has a non-null matched_field, because the nine CASE branches
cover exactly the nine WHERE disjuncts. -/
theorem C10_matched_field_total (rawName : String)
    (store : List SpeciesRecord) (row : SpeciesRow)
    (hq : strLower rawName ≠ "")
    (hrow : row ∈ speciesSearch rawName store) :
    row.matched_field.isSome = true := by
  simp only [speciesSearch, if_neg hq] at hrow
  rw [List.mem_dedup] at hrow
  obtain ⟨r, hr, rfl⟩ := List.mem_map.mp hrow
  exact matchedField_isSome _ _ (List.mem_filter.mp hr).2

/-- Witness for C10_matched_field_total on a one-record store. -/
theorem C10_witness :
    strLower "a" ≠ "" ∧
    ({ record := recA, matched_field := some MatchField.speciesName } :
      SpeciesRow) ∈ speciesSearch "a" [recA] ∧
    ({ record := recA, matched_field := some MatchField.speciesName } :
      SpeciesRow).matched_field.isSome = true :=
  ⟨by decide, by decide,
   C10_matched_field_total "a" [recA] _ (by decide) (by decide)⟩

end NZWildlife
